import Mathlib

/-!
Verification of the Safety-Gated Motion Coordinator of
`khj_move_turtlebot/k_move_control.py`.

Shallow embedding conventions:
* Python float literals (0.1, 0.2, 0.5, 0.6, 0.8) are modelled exactly as
  the rationals they denote in the source text.
* The maneuver action server (`Turtlebot3PatrolServer.execute_callback`)
  is modelled as a function from a cancellation-observation point to the
  list of commands published on the motion sink plus the terminal result.
  The cancellation flag `goal_handle.is_cancel_requested` is monotone:
  once requested it stays requested, so a schedule is captured by the
  index of the first poll at which the flag reads true (`none` = never).
  Polls are numbered in execution order: the outer-loop poll of cycle `c`
  is poll `16*c`, the inner poll before sub-tick `s` of cycle `c` is poll
  `16*c + 1 + s`.
* The GUI node (`MainWindow`) is modelled as a state record plus a step
  function over the events that mutate it; outputs record what was
  published on `/cmd_vel`, whether an action goal was sent, and whether a
  cancellation of the current goal was requested.
-/

/-- The Python literal `0.1` (validity threshold), as the exact rational
1/10 in raw normalized form, so that kernel evaluation of the model never
has to unfold rational arithmetic. -/
def q01 : ℚ := ⟨1, 10, by decide, by decide⟩

/-- The Python literal `0.2` (manual step), the rational 1/5 in raw form. -/
def q02 : ℚ := ⟨1, 5, by decide, by decide⟩

/-- The Python literal `0.5` (blocking threshold), 1/2 in raw form. -/
def q05 : ℚ := ⟨1, 2, by decide, by decide⟩

/-- The Python literal `0.6` (maneuver angular rate), 3/5 in raw form. -/
def q06 : ℚ := ⟨3, 5, by decide, by decide⟩

/-- The Python literal `0.8` (clearing threshold), 4/5 in raw form. -/
def q08 : ℚ := ⟨4, 5, by decide, by decide⟩

/-- A `geometry_msgs/Twist` restricted to the two fields the program ever
sets: `linear.x` and `angular.z`. -/
structure MotionCommand where
  linear : ℚ
  angular : ℚ
deriving DecidableEq

/-- `Twist()`: the zero command published by `stop_robot` and `btn_stop_clicked`. -/
def zeroCmd : MotionCommand := ⟨0, 0⟩

/-- The active-phase command of `execute_callback`: `msg.angular.z = 0.6`. -/
def spinCmd : MotionCommand := ⟨0, q06⟩

/-- Terminal result of a maneuver invocation: `goal_handle.succeed()` or
`goal_handle.canceled()`. -/
inductive ManeuverResult where
  | Succeeded
  | Canceled
deriving DecidableEq

/-- Whether `goal_handle.is_cancel_requested` reads true at poll number `k`,
given that the request first becomes observable at poll `cancelFrom`
(`none`: never requested). -/
def cancelObserved (cancelFrom : Option Nat) (k : Nat) : Bool :=
  match cancelFrom with
  | none => false
  | some t => t ≤ k

/-- The inner `for _ in range(15)` loop of `execute_callback`, starting at
sub-tick `s` of cycle `c` with `rem` sub-ticks left to run.  Returns the
commands published and whether the loop returned through the cancellation
branch (`stop_robot(); goal_handle.canceled(); return`). -/
def runActive (cancelFrom : Option Nat) (c : Nat) : Nat → Nat → List MotionCommand × Bool
  | _, 0 => ([], false)
  | s, rem + 1 =>
    if cancelObserved cancelFrom (16 * c + 1 + s) then
      ([zeroCmd], true)
    else
      let rest := runActive cancelFrom c (s + 1) rem
      (spinCmd :: rest.1, rest.2)

/-- The outer `for count in range(8)` loop of `execute_callback`, at cycle
`c` with `rem` cycles left.  A cancellation observed at the outer poll
breaks out of the loop, after which the trailing `stop_robot()` runs and
the goal handle is marked `succeed()`. -/
def runCycles (cancelFrom : Option Nat) : Nat → Nat → List MotionCommand × ManeuverResult
  | _, 0 => ([zeroCmd], ManeuverResult.Succeeded)
  | c, rem + 1 =>
    if cancelObserved cancelFrom (16 * c) then
      ([zeroCmd], ManeuverResult.Succeeded)
    else
      let active := runActive cancelFrom c 0 15
      if active.2 then
        (active.1, ManeuverResult.Canceled)
      else
        let rest := runCycles cancelFrom (c + 1) rem
        (active.1 ++ [zeroCmd] ++ rest.1, rest.2)

/-- `Turtlebot3PatrolServer.execute_callback`: the full maneuver, as the
list of commands published on the motion sink and the terminal result. -/
def executeManeuver (cancelFrom : Option Nat) : List MotionCommand × ManeuverResult :=
  runCycles cancelFrom 0 8

/-- The mutable state of `MainWindow` that the core logic touches:
`self.safety_mode`, `self.is_obstacle_detected`, `self.velocity`,
`self.angular`, `self._goal_handle` (handles are opaque identifiers). -/
structure ControlState where
  safety_mode : Bool
  is_obstacle_detected : Bool
  velocity : ℚ
  angular : ℚ
  goal_handle : Option Nat
deriving DecidableEq

/-- The state after `MainWindow.__init__`. -/
def initState : ControlState :=
  { safety_mode := false, is_obstacle_detected := false
    velocity := 0, angular := 0, goal_handle := none }

/-- Externally observable effects of one callback: commands published on
`/cmd_vel`, whether `send_goal_async` was called, and whether
`cancel_goal_async` was called on the stored handle. -/
structure Output where
  published : List MotionCommand
  goalSent : Bool
  cancelSent : Bool
deriving DecidableEq

/-- A callback that publishes nothing and touches no action goal. -/
def noOutput : Output := ⟨[], false, false⟩

/-- Python slice `l[lo:hi]` (with the usual negative-index and clamping
semantics; an omitted bound is passed explicitly by the callers). -/
def pySlice (l : List ℚ) (lo hi : Int) : List ℚ :=
  let n : Int := l.length
  let lo2 : Int := if lo < 0 then max (n + lo) 0 else min lo n
  let hi2 : Int := if hi < 0 then max (n + hi) 0 else min hi n
  (l.take hi2.toNat).drop lo2.toNat

/-- The zone filter `[r for r in zone if r > 0.1]`. -/
def validFilter (zone : List ℚ) : List ℚ :=
  zone.filter (fun r => q01 < r)

/-- The local `front` of `scan_callback`: valid readings of
`ranges[:30] + ranges[-30:]`. -/
def front (ranges : List ℚ) : List ℚ :=
  validFilter (pySlice ranges 0 30 ++ pySlice ranges (-30) ranges.length)

/-- The local `back` of `scan_callback`: valid readings of
`ranges[int(num/2)-30 : int(num/2)+30]`. -/
def back (ranges : List ℚ) : List ℚ :=
  validFilter (pySlice ranges ((ranges.length : Int) / 2 - 30)
    ((ranges.length : Int) / 2 + 30))

/-- The local `sides` of `scan_callback`: valid readings of the two side
slices centred at `num/4` and `num*3/4`. -/
def sides (ranges : List ℚ) : List ℚ :=
  validFilter (pySlice ranges ((ranges.length : Int) / 4 - 30)
      ((ranges.length : Int) / 4 + 30) ++
    pySlice ranges ((ranges.length : Int) * 3 / 4 - 30)
      ((ranges.length : Int) * 3 / 4 + 30))

/-- The local `check_list = front + back + sides` of `scan_callback`. -/
def checkList (ranges : List ℚ) : List ℚ :=
  front ranges ++ back ranges ++ sides ranges

/-- The Zone Analyzer part of `MainWindow.scan_callback`: `min(check_list)`,
or `none` when the frame is empty or no zone holds a valid reading (the
two early `return`s). -/
def minDistance (ranges : List ℚ) : Option ℚ :=
  if ranges.length = 0 then none
  else
    match checkList ranges with
    | [] => none
    | x :: xs => some (xs.foldl min x)

/-- `MainWindow.warn_action`: records the blocked state, zeroes the
accumulated command, and sends a new action goal (the stored handle is
only replaced later, by `goal_response_callback`). -/
def warn_action (s : ControlState) : ControlState × Output :=
  ({ s with is_obstacle_detected := true, velocity := 0, angular := 0 },
   { published := [], goalSent := true, cancelSent := false })

/-- `MainWindow.scan_callback` on one `LaserScan.ranges` frame. -/
def scan_callback (s : ControlState) (ranges : List ℚ) : ControlState × Output :=
  match minDistance ranges with
  | none => (s, noOutput)
  | some dist =>
    if dist < q05 ∧ s.safety_mode = true then
      if s.is_obstacle_detected = false then warn_action s
      else (s, noOutput)
    else if q08 ≤ dist then
      ({ s with is_obstacle_detected := false }, noOutput)
    else (s, noOutput)

/-- The events delivered to `MainWindow`: button clicks, the safety
service, scan frames, the goal-acceptance callback, and the 100 ms
`turtle_move` timer tick. -/
inductive Event where
  | btnGo
  | btnBack
  | btnLeft
  | btnRight
  | btnStop
  | safetyOn
  | safetyOff
  | safetyService (b : Bool)
  | scan (ranges : List ℚ)
  | goalResponse (k : Nat)
  | mixerTick

/-- One event-handler invocation of `MainWindow`, as a state transformer
with observable output.  Matches the handlers line by line:
`btn_*_clicked`, `turn_on_safety`, `turn_off_safety`,
`handle_safety_service`, `scan_callback`, `goal_response_callback`,
`turtle_move`. -/
def step (s : ControlState) (e : Event) : ControlState × Output :=
  match e with
  | Event.btnGo =>
    (if s.is_obstacle_detected then s
     else { s with velocity := s.velocity + q02 }, noOutput)
  | Event.btnBack =>
    (if s.is_obstacle_detected then s
     else { s with velocity := s.velocity - q02 }, noOutput)
  | Event.btnLeft =>
    (if s.is_obstacle_detected then s
     else { s with angular := s.angular + q02 }, noOutput)
  | Event.btnRight =>
    (if s.is_obstacle_detected then s
     else { s with angular := s.angular - q02 }, noOutput)
  | Event.btnStop =>
    ({ s with velocity := 0, angular := 0, goal_handle := none },
     { published := [zeroCmd], goalSent := false,
       cancelSent := s.goal_handle.isSome })
  | Event.safetyOn =>
    ({ s with safety_mode := true }, noOutput)
  | Event.safetyOff =>
    ({ s with safety_mode := false, is_obstacle_detected := false
              velocity := 0, angular := 0 },
     { published := [], goalSent := false,
       cancelSent := s.goal_handle.isSome })
  | Event.safetyService b =>
    if b then
      ({ s with safety_mode := true }, noOutput)
    else
      ({ s with safety_mode := false, is_obstacle_detected := false
                velocity := 0, angular := 0 },
       { published := [], goalSent := false,
         cancelSent := s.goal_handle.isSome })
  | Event.scan ranges => scan_callback s ranges
  | Event.goalResponse k =>
    ({ s with goal_handle := some k }, noOutput)
  | Event.mixerTick =>
    if s.is_obstacle_detected then (s, noOutput)
    else (s, { published := [⟨s.velocity, s.angular⟩],
               goalSent := false, cancelSent := false })

/-- Run a sequence of events from a state, keeping only the state. -/
def runEvents (s : ControlState) (es : List Event) : ControlState :=
  es.foldl (fun s e => (step s e).1) s

/-- The full trace of an uninterrupted maneuver: 8 cycles of 15 spin
commands plus a pause stop, then the final stop. -/
def fullTrace : List MotionCommand :=
  (List.replicate 8 (List.replicate 15 spinCmd ++ [zeroCmd])).flatten ++ [zeroCmd]

/-- The commands published before the poll at which a cancellation first
becomes observable: the full cycles already completed, then the spin
commands of the current active phase, then the final stop. -/
def canceledTrace (t : Nat) : List MotionCommand :=
  (List.replicate (t / 16) (List.replicate 15 spinCmd ++ [zeroCmd])).flatten ++
  List.replicate (t % 16 - 1) spinCmd ++ [zeroCmd]

/-- The rational 3/10 (the scenario reading 0.3), raw form. -/
def q03 : ℚ := ⟨3, 10, by decide, by decide⟩

/-- The rational 1, raw form (a far reading, at or beyond 0.8). -/
def qOne : ℚ := ⟨1, 1, by decide, by decide⟩

/-- The spec scenario frame: a single reading of 0.3. -/
def frameNear : List ℚ := [q03]

/-- A frame whose single reading 1.0 is at or beyond the clearing
threshold. -/
def frameFar : List ℚ := [qOne]

/-- A blocked state with no live handle and zero accumulators. -/
def blockedIdle : ControlState := ⟨true, true, 0, 0, none⟩

/-- A blocked state holding a live maneuver handle. -/
def liveManeuverState : ControlState := ⟨true, true, 0, 0, some 0⟩

/-- A clear state with safety mode on. -/
def safeClear : ControlState := ⟨true, false, 0, 0, none⟩

/-- The implicit rest invariant of C10: a blocked state has both
accumulators at zero. -/
def restInvariant (s : ControlState) : Prop :=
  s.is_obstacle_detected = true → s.velocity = 0 ∧ s.angular = 0

/-!
Theorems.  The first group ties the raw rational constants to the decimal
literals of the Python source; then come shared helper lemmas and the
claim theorems.
-/

theorem q01_eq_literal : q01 = (0.1 : ℚ) := by
  rw [q01, Rat.mk'_eq_divInt, Rat.divInt_eq_div]; norm_num

theorem q02_eq_literal : q02 = (0.2 : ℚ) := by
  rw [q02, Rat.mk'_eq_divInt, Rat.divInt_eq_div]; norm_num

theorem q03_eq_literal : q03 = (0.3 : ℚ) := by
  rw [q03, Rat.mk'_eq_divInt, Rat.divInt_eq_div]; norm_num

theorem q05_eq_literal : q05 = (0.5 : ℚ) := by
  rw [q05, Rat.mk'_eq_divInt, Rat.divInt_eq_div]; norm_num

theorem q06_eq_literal : q06 = (0.6 : ℚ) := by
  rw [q06, Rat.mk'_eq_divInt, Rat.divInt_eq_div]; norm_num

theorem q08_eq_literal : q08 = (0.8 : ℚ) := by
  rw [q08, Rat.mk'_eq_divInt, Rat.divInt_eq_div]; norm_num

theorem qOne_eq_literal : qOne = (1 : ℚ) := by
  rw [qOne, Rat.mk'_eq_divInt, Rat.divInt_eq_div]; norm_num

theorem runActive_canceled_getLast (cancelFrom : Option Nat) (c : Nat) :
    ∀ rem s, (runActive cancelFrom c s rem).2 = true →
      (runActive cancelFrom c s rem).1.getLast? = some zeroCmd := by
  intro rem
  induction rem with
  | zero => intro s h; simp [runActive] at h
  | succ n ih =>
    intro s h
    by_cases hc : cancelObserved cancelFrom (16 * c + 1 + s) = true
    · simp [runActive, hc]
    · simp only [runActive, Bool.not_eq_true] at h ⊢
      rw [if_neg (by simp [hc])] at h ⊢
      simp only at h
      have h2 := ih (s + 1) h
      cases hl : (runActive cancelFrom c (s + 1) n).1 with
      | nil => rw [hl] at h2; simp at h2
      | cons b l => simp only [hl] at h2 ⊢; rw [List.getLast?_cons_cons]; exact h2

theorem runCycles_getLast (cancelFrom : Option Nat) :
    ∀ rem c, (runCycles cancelFrom c rem).1.getLast? = some zeroCmd := by
  intro rem
  induction rem with
  | zero => intro c; simp [runCycles]
  | succ n ih =>
    intro c
    by_cases hc : cancelObserved cancelFrom (16 * c) = true
    · simp [runCycles, hc]
    · simp only [runCycles]
      rw [if_neg (by simp [hc])]
      by_cases ha : (runActive cancelFrom c 0 15).2 = true
      · simp only [ha, if_true]
        exact runActive_canceled_getLast cancelFrom c 15 0 ha
      · rw [Bool.not_eq_true] at ha
        simp only [ha]
        rw [if_neg (by simp)]
        cases hl : (runCycles cancelFrom (c + 1) n).1 with
        | nil => have h3 := ih (c + 1); rw [hl] at h3; simp at h3
        | cons b l =>
          have h3 := ih (c + 1)
          rw [hl] at h3
          simp only [hl]
          rw [List.append_assoc, List.getLast?_append_of_ne_nil]
          · simpa using h3
          · simp

/-- Claim C1: every exit path of the maneuver ends with the zero command on the
motion sink and reaches a terminal result. -/
theorem maneuver_last_command_zero (cancelFrom : Option Nat) :
    (executeManeuver cancelFrom).1.getLast? = some zeroCmd ∧
    ((executeManeuver cancelFrom).2 = ManeuverResult.Succeeded ∨
     (executeManeuver cancelFrom).2 = ManeuverResult.Canceled) := by
  refine ⟨runCycles_getLast cancelFrom 8 0, ?_⟩
  cases (executeManeuver cancelFrom).2 <;> simp

set_option maxRecDepth 8000 in
/-- Claim C4: an uninterrupted maneuver runs 8 cycles of 15 active sub-ticks,
emits 120 active commands of angular rate 0.6, pause and final commands
zero, and succeeds. -/
theorem maneuver_uninterrupted :
    executeManeuver none = (fullTrace, ManeuverResult.Succeeded) ∧
    fullTrace.count spinCmd = 120 ∧
    spinCmd.angular = q06 ∧ spinCmd.linear = 0 := by decide

set_option maxHeartbeats 4000000 in
set_option maxRecDepth 8000 in
/-- Claim C5, amended: a cancellation first observed at poll `t` stops the spin
commands at once (the trace is the prefix already emitted plus one final
zero command), but the terminal result is `Canceled` only when `t` is an
inner sub-tick poll; at an outer cycle-boundary poll the code breaks out
of the loop and marks the goal `Succeeded`. -/
theorem maneuver_cancel_amended : ∀ t, t < 128 →
    (executeManeuver (some t)).1 = canceledTrace t ∧
    (executeManeuver (some t)).2 =
      (if t % 16 = 0 then ManeuverResult.Succeeded else ManeuverResult.Canceled) := by
  decide

/-- Counterexample for claim C5: a cancellation that first becomes observable at the
outer cycle-boundary poll of cycle 1 (poll 16) makes the code break out of
the loop and call `goal_handle.succeed()`: the terminal state is
`Succeeded`, not `Canceled` as the claim requires. -/
theorem maneuver_cancel_cycle_boundary_succeeds :
    (executeManeuver (some 16)).2 = ManeuverResult.Succeeded ∧
    ManeuverResult.Succeeded ≠ ManeuverResult.Canceled := by decide

/-- Witness for the amended C5 theorem at the spec scenario: cancellation
observed at cycle 3, sub-tick 5 (poll 53). -/
theorem maneuver_cancel_amended_witness :
    (executeManeuver (some 53)).1 = canceledTrace 53 ∧
    (executeManeuver (some 53)).2 =
      (if 53 % 16 = 0 then ManeuverResult.Succeeded else ManeuverResult.Canceled) :=
  maneuver_cancel_amended 53 (by decide)

/-- Counterexample for claim C3: on a mixer tick in a blocked state the code returns
before publishing, so the emitted command list is empty, not the zero
command the claim requires. -/
theorem mixer_blocked_counterexample :
    (step blockedIdle Event.mixerTick).2.published ≠ [zeroCmd] := by decide

/-- Claim C3, amended: a mixer tick leaves the state unchanged; when blocked it
publishes nothing at all, otherwise it publishes exactly the accumulated
pair. -/
theorem mixer_tick_amended (s : ControlState) :
    (step s Event.mixerTick).1 = s ∧
    (step s Event.mixerTick).2.published =
      (if s.is_obstacle_detected = true then []
       else [⟨s.velocity, s.angular⟩]) ∧
    (step s Event.mixerTick).2.goalSent = false ∧
    (step s Event.mixerTick).2.cancelSent = false := by
  by_cases hb : s.is_obstacle_detected = true <;> simp [step, hb, noOutput]

/-- Claim C6, amended: `turn_off_safety` clears the safety mode and the blocked
flag, zeroes both accumulators, and requests cancellation exactly when a
handle is stored, but it never clears the stored handle. -/
theorem turn_off_safety_amended (s : ControlState) :
    (step s Event.safetyOff).1 =
      { s with safety_mode := false, is_obstacle_detected := false
               velocity := 0, angular := 0 } ∧
    (step s Event.safetyOff).1.goal_handle = s.goal_handle ∧
    (step s Event.safetyOff).2.cancelSent = s.goal_handle.isSome ∧
    (step s Event.safetyOff).2.published = [] := by
  simp [step]

/-- Counterexample for claim C6: disabling safety while a maneuver handle is live
requests cancellation but leaves the handle stored, and it is still stored
after a further mixer tick, contradicting the claim that the handle is
`None` within one sub-tick period. -/
theorem turn_off_safety_counterexample :
    (step liveManeuverState Event.safetyOff).2.cancelSent = true ∧
    (step liveManeuverState Event.safetyOff).1.goal_handle ≠ none ∧
    (step (step liveManeuverState Event.safetyOff).1
      Event.mixerTick).1.goal_handle ≠ none := by decide

/-- Claim C8: `btn_stop_clicked` is idempotent.  The second call finds the handle
already cleared, sends no second cancellation, leaves the state fixed and
publishes the same zero command; a call with no stored handle sends no
cancellation at all (the guard makes it a no-op, not an error). -/
theorem cancel_idempotent (s : ControlState) :
    (step (step s Event.btnStop).1 Event.btnStop).1 = (step s Event.btnStop).1 ∧
    (step (step s Event.btnStop).1 Event.btnStop).2.cancelSent = false ∧
    (step (step s Event.btnStop).1 Event.btnStop).2.published =
      (step s Event.btnStop).2.published ∧
    (step s Event.btnStop).2.cancelSent = s.goal_handle.isSome := by
  simp [step]

theorem q05_lt_q08 : q05 < q08 := by decide

/-- Claim C2: hysteresis of the Obstacle Gate on one computed distance.  The
gate blocks exactly when it was Clear, safety is on and the distance is
below 0.5; it clears exactly when it was Blocked and the distance is at
or beyond 0.8; in the dead band nothing changes; and a goal is requested
exactly on the Clear-to-Blocked transition, so once per transition and
never again while already Blocked. -/
theorem gate_hysteresis (s : ControlState) (ranges : List ℚ) (d : ℚ)
    (h : minDistance ranges = some d) :
    ((s.is_obstacle_detected = false ∧
        (scan_callback s ranges).1.is_obstacle_detected = true) ↔
      (s.safety_mode = true ∧ d < q05 ∧ s.is_obstacle_detected = false)) ∧
    ((s.is_obstacle_detected = true ∧
        (scan_callback s ranges).1.is_obstacle_detected = false) ↔
      (q08 ≤ d ∧ s.is_obstacle_detected = true)) ∧
    (q05 ≤ d → d < q08 → scan_callback s ranges = (s, noOutput)) ∧
    ((scan_callback s ranges).2.goalSent = true ↔
      (s.is_obstacle_detected = false ∧ s.safety_mode = true ∧ d < q05)) := by
  have hq : q05 < q08 := by decide
  unfold scan_callback
  rw [h]
  cases hs : s.safety_mode <;> cases hb : s.is_obstacle_detected <;>
    by_cases hd1 : d < q05 <;> by_cases hd2 : q08 ≤ d <;>
    refine ⟨?_, ?_, ?_, ?_⟩ <;>
    simp_all [warn_action, noOutput] <;>
    (try rw [if_neg (not_lt.mpr hd1)]) <;>
    (try rw [if_neg (not_le.mpr hd2)]) <;>
    (try simp_all [noOutput, warn_action]) <;>
    (try linarith)

/-- Witness for C2: the spec scenario frame 0.3 with safety on from a
Clear state blocks the gate and requests exactly one maneuver. -/
theorem gate_hysteresis_witness :
    (scan_callback safeClear frameNear).1.is_obstacle_detected = true ∧
    (scan_callback safeClear frameNear).2.goalSent = true := by
  have h := gate_hysteresis safeClear frameNear q03 (by decide)
  exact ⟨(h.1.mpr ⟨rfl, by decide, rfl⟩).2, h.2.2.2.mpr ⟨rfl, rfl, by decide⟩⟩

theorem pySlice_subset {l : List ℚ} {lo hi : Int} {x : ℚ}
    (h : x ∈ pySlice l lo hi) : x ∈ l := by
  unfold pySlice at h
  exact List.mem_of_mem_take (List.mem_of_mem_drop h)

theorem validFilter_eq_nil {zone ranges : List ℚ}
    (hsub : ∀ x ∈ zone, x ∈ ranges) (h : ∀ r ∈ ranges, r ≤ q01) :
    validFilter zone = [] := by
  unfold validFilter
  rw [List.filter_eq_nil_iff]
  intro a ha
  simpa using not_lt.mpr (h a (hsub a ha))

theorem minDistance_eq_none_of_all_small (ranges : List ℚ)
    (h : ∀ r ∈ ranges, r ≤ q01) : minDistance ranges = none := by
  have hf : front ranges = [] := by
    refine validFilter_eq_nil (fun x hx => ?_) h
    rcases List.mem_append.mp hx with h1 | h1 <;> exact pySlice_subset h1
  have hb : back ranges = [] := by
    exact validFilter_eq_nil (fun x hx => pySlice_subset hx) h
  have hs : sides ranges = [] := by
    refine validFilter_eq_nil (fun x hx => ?_) h
    rcases List.mem_append.mp hx with h1 | h1 <;> exact pySlice_subset h1
  unfold minDistance
  by_cases h0 : ranges.length = 0
  · simp [h0]
  · simp [h0, checkList, hf, hb, hs]

/-- Claim C9: a scan frame that is empty, or in which every reading is at or
below the validity threshold 0.1, changes nothing: the gate state, the
accumulators and the stored handle all persist, nothing is published and
no goal or cancellation is issued. -/
theorem scan_insufficient_no_change (s : ControlState) (ranges : List ℚ)
    (h : ranges = [] ∨ ∀ r ∈ ranges, r ≤ q01) :
    step s (Event.scan ranges) = (s, noOutput) := by
  have hmd : minDistance ranges = none := by
    rcases h with h | h
    · subst h; rfl
    · exact minDistance_eq_none_of_all_small ranges h
  simp [step, scan_callback, hmd]

/-- Witness for C9: a blocked state survives a frame of two invalid
readings (0.1 and 0) unchanged. -/
theorem scan_insufficient_no_change_witness :
    step blockedIdle (Event.scan [q01, 0]) = (blockedIdle, noOutput) :=
  scan_insufficient_no_change blockedIdle [q01, 0] (Or.inr (by decide))

theorem restInvariant_step (s : ControlState) (e : Event)
    (h : restInvariant s) : restInvariant (step s e).1 := by
  cases e with
  | btnGo =>
    by_cases hb : s.is_obstacle_detected = true
    · simpa [step, hb] using h
    · have hb2 : s.is_obstacle_detected = false := by
        cases hbv : s.is_obstacle_detected
        · rfl
        · exact absurd hbv hb
      simp [step, hb2, restInvariant]
  | btnBack =>
    by_cases hb : s.is_obstacle_detected = true
    · simpa [step, hb] using h
    · have hb2 : s.is_obstacle_detected = false := by
        cases hbv : s.is_obstacle_detected
        · rfl
        · exact absurd hbv hb
      simp [step, hb2, restInvariant]
  | btnLeft =>
    by_cases hb : s.is_obstacle_detected = true
    · simpa [step, hb] using h
    · have hb2 : s.is_obstacle_detected = false := by
        cases hbv : s.is_obstacle_detected
        · rfl
        · exact absurd hbv hb
      simp [step, hb2, restInvariant]
  | btnRight =>
    by_cases hb : s.is_obstacle_detected = true
    · simpa [step, hb] using h
    · have hb2 : s.is_obstacle_detected = false := by
        cases hbv : s.is_obstacle_detected
        · rfl
        · exact absurd hbv hb
      simp [step, hb2, restInvariant]
  | btnStop => simp [step, restInvariant]
  | safetyOn => intro hb; exact h hb
  | safetyOff => simp [step, restInvariant]
  | safetyService b =>
    cases b
    · simp [step, restInvariant]
    · intro hb; exact h hb
  | goalResponse k => intro hb; exact h hb
  | mixerTick =>
    by_cases hb : s.is_obstacle_detected = true <;> simpa [step, hb] using h
  | scan ranges =>
    cases hmd : minDistance ranges with
    | none => simpa [step, scan_callback, hmd] using h
    | some d =>
      simp only [step, scan_callback, hmd]
      split_ifs with h1 h2
      · simp [warn_action, restInvariant]
      · exact h
      · simp [restInvariant]
      · exact h

theorem restInvariant_run (es : List Event) : ∀ s : ControlState,
    restInvariant s → restInvariant (runEvents s es) := by
  induction es with
  | nil => intro s h; exact h
  | cons e es ih =>
    intro s h
    exact ih (step s e).1 (restInvariant_step s e h)

/-- Claim C10: along every event sequence from the initial state, whenever the
blocked flag is set both accumulators are exactly zero — the blocking
transition zeroes them and every manual increment is rejected while
blocked. -/
theorem blocked_implies_rest (es : List Event)
    (h : (runEvents initState es).is_obstacle_detected = true) :
    (runEvents initState es).velocity = 0 ∧
    (runEvents initState es).angular = 0 :=
  restInvariant_run es initState (by intro hb; cases hb) h

/-- Witness for C10: after enabling safety and one close frame the state
is blocked and both accumulators are zero. -/
theorem blocked_implies_rest_witness :
    (runEvents initState [Event.safetyOn, Event.scan frameNear]).velocity = 0 ∧
    (runEvents initState [Event.safetyOn, Event.scan frameNear]).angular = 0 :=
  blocked_implies_rest [Event.safetyOn, Event.scan frameNear] (by decide)

/-- Counterexample for claim C7: from the initial state, enable safety, take a close
frame (first goal sent), accept its handle, then a far frame clears the
gate while the handle stays stored.  The next close frame sends a second
goal even though a handle is still live, refuting the claim that such a
request is a no-op. -/
theorem request_while_live_counterexample :
    (runEvents initState [Event.safetyOn, Event.scan frameNear,
        Event.goalResponse 0, Event.scan frameFar]).goal_handle = some 0 ∧
    (runEvents initState [Event.safetyOn, Event.scan frameNear,
        Event.goalResponse 0, Event.scan frameFar]).is_obstacle_detected = false ∧
    (step (runEvents initState [Event.safetyOn, Event.scan frameNear,
        Event.goalResponse 0, Event.scan frameFar])
      (Event.scan frameNear)).2.goalSent = true := by decide

/-- Claim C7, amended: `warn_action` never consults the stored handle.  Whenever
the gate is Clear, safety is on and the computed distance is below 0.5,
the scan callback sends a new goal whatever handle is stored (live or
not); the stored handle itself is replaced only when the new goal
response arrives. -/
theorem warn_action_ignores_handle (g : Option Nat) (v a : ℚ)
    (ranges : List ℚ) (d : ℚ)
    (h : minDistance ranges = some d) (hd : d < q05) :
    (step ⟨true, false, v, a, g⟩ (Event.scan ranges)).2.goalSent = true ∧
    (step ⟨true, false, v, a, g⟩ (Event.scan ranges)).1.goal_handle = g := by
  simp [step, scan_callback, h, hd, warn_action]

/-- Witness for the amended C7 theorem: a stored handle 0 and the scenario
frame 0.3. -/
theorem warn_action_ignores_handle_witness :
    (step ⟨true, false, 0, 0, some 0⟩ (Event.scan frameNear)).2.goalSent = true ∧
    (step ⟨true, false, 0, 0, some 0⟩ (Event.scan frameNear)).1.goal_handle = some 0 :=
  warn_action_ignores_handle (some 0) 0 0 frameNear q03 (by decide) (by decide)
